import Mathlib

/-!
Shallow embedding of `simple_grid_world/envs/grid_world.py` (`GridWorldEnv`).

Positions are integer pairs in (row, col) coordinates.  The process-global
numpy random generator (`np.random`) is modelled as an explicit stream of
natural numbers with a cursor; `np.random.randint(low=[0,0], high=[row,col])`
consumes two values from the stream, reduced modulo the grid dimensions.
Python exceptions are modelled with `Except` / an explicit error component.
-/

namespace GridWorld

/-- A grid position `(r, c)`, as stored in the 2-element numpy arrays. -/
abbrev Pos := Int × Int

/-- Observation returned by `_get_obs`: the pair
`(self.agent_location, self.target_location)`. -/
abbrev Obs := Pos × List Pos

/-- The auxiliary info dictionary returned by `_get_info` (always `{}`). -/
abbrev Info := List (String × Int)

/-- Python exceptions raised by the embedded methods. -/
inductive PyErr where
  /-- numpy `ValueError: The truth value of an array with more than one
  element is ambiguous`. -/
  | valueError
  /-- `KeyError` from the `self._action_to_direction[action]` lookup. -/
  | keyError
deriving DecidableEq

/-- The process-global `np.random` state: a stream of raw draws and a
cursor marking how much of the stream has been consumed. -/
structure Rng where
  stream : Nat → Nat
  idx : Nat

/-- A global-generator state whose raw draws are the elements of `l`
(and `0` once `l` is exhausted), with nothing consumed yet. -/
def rngOf (l : List Nat) : Rng :=
  { stream := fun i => l.getD i 0, idx := 0 }

/-- `np.random.randint(low=np.array([0, 0]), high=np.array([self.row, self.col]),
size=2, dtype=int)`: draw a uniform position with `0 ≤ r < row`, `0 ≤ c < col`,
consuming two raw values from the global stream. -/
def randPos (row col : Nat) (g : Rng) : Pos × Rng :=
  ((((g.stream g.idx) % row : Nat), ((g.stream (g.idx + 1)) % col : Nat)),
   { g with idx := g.idx + 2 })

/-- `(self.init_agent != new).any()`: when `agent_location=None` was passed,
`self.init_agent` is the 0-d object array `np.array(None)` and the elementwise
comparison with an integer vector is `True` everywhere, so `.any()` is `True`
regardless of `new`; with an explicit 2-element agent array it is `True`
exactly when the positions differ in some coordinate, i.e. are unequal. -/
def agentDiffers : Option Pos → Pos → Bool
  | none, _ => true
  | some a, p => decide (a ≠ p)

/-- The acceptance test of the rejection-sampling loop in `__init__`:
`all(((new!=t).any() for t in target)) and (self.init_agent != new).any()`. -/
def acceptTarget (initAgent : Option Pos) (chosen : List Pos) (new : Pos) : Bool :=
  (chosen.all fun t => decide (new ≠ t)) && agentDiffers initAgent new

/-- The `while len(target) < target_location:` rejection-sampling loop of
`__init__`, with explicit fuel (the source loop is unbounded; `none` means the
fuel ran out before `n` targets were accepted). `acc` is the list built so far. -/
def sampleTargetsAux (row col : Nat) (initAgent : Option Pos) (n : Nat) :
    Nat → List Pos → Rng → Option (List Pos × Rng)
  | 0, acc, g => if acc.length < n then none else some (acc, g)
  | fuel + 1, acc, g =>
    if acc.length < n then
      let new := (randPos row col g).1
      let g2 := (randPos row col g).2
      if acceptTarget initAgent acc new then
        sampleTargetsAux row col initAgent n fuel (acc ++ [new]) g2
      else
        sampleTargetsAux row col initAgent n fuel acc g2
    else some (acc, g)

/-- The random-target branch of `__init__` (`type(target_location) == int`):
sample `n` targets by rejection, starting from the empty list. -/
def sampleTargets (row col : Nat) (initAgent : Option Pos) (n : Nat)
    (fuel : Nat) (g : Rng) : Option (List Pos × Rng) :=
  sampleTargetsAux row col initAgent n fuel [] g

/-- The configuration state a `GridWorldEnv` holds after `__init__`:
grid dimensions, `self.init_agent` (`none` models `np.array(None)`),
`self.init_target`, and the two reward constants. -/
structure EnvInit where
  row : Nat
  col : Nat
  init_agent : Option Pos
  init_target : List Pos
  term_reward : Int
  step_reward : Int
deriving DecidableEq

/-- `GridWorldEnv.__init__` with an explicit `target_location` list (the
`else` branch): the supplied positions are stored verbatim — the constructor
performs no bounds check on the agent or target positions. -/
def mkEnvExplicit (row col : Nat) (agent_location : Option Pos)
    (target_location : List Pos) (term_reward step_reward : Int) : EnvInit :=
  { row := row, col := col, init_agent := agent_location,
    init_target := target_location, term_reward := term_reward,
    step_reward := step_reward }

/-- `GridWorldEnv.__init__` with an integer `target_location` (the random
branch): run the rejection-sampling loop against the global generator and
store the accepted list as `self.init_target`. -/
def mkEnvRandom (row col : Nat) (agent_location : Option Pos) (n : Nat)
    (term_reward step_reward : Int) (fuel : Nat) (g : Rng) :
    Option (EnvInit × Rng) :=
  match sampleTargets row col agent_location n fuel g with
  | none => none
  | some (ts, g') =>
    some ({ row := row, col := col, init_agent := agent_location,
            init_target := ts, term_reward := term_reward,
            step_reward := step_reward }, g')

/-- The episode state a `GridWorldEnv` holds once `reset` has run:
the configuration plus `self.agent_location` and `self.target_location`. -/
structure Env where
  row : Nat
  col : Nat
  term_reward : Int
  step_reward : Int
  agent_location : Pos
  target_location : List Pos
deriving DecidableEq

/-- The truthiness of `self.init_agent == None` in `reset`: with
`np.array(None)` the comparison is a 0-d `True` array, which is truthy; with
an explicit 2-element array the elementwise comparison yields
`array([False, False])`, whose use as a condition raises
`ValueError: The truth value of an array with more than one element is
ambiguous`. -/
def truthyEqNone : Option Pos → Except PyErr Bool
  | none => .ok true
  | some _ => .error .valueError

/-- `GridWorldEnv.reset(seed, options)`.  `super().reset(seed=seed)` seeds
`self.np_random`, but the body never reads `self.np_random`: the random agent
draw uses the process-global `np.random` stream `g`, so `seed` is ignored.
Evaluating the conditional `... if self.init_agent == None else self.init_agent`
raises `ValueError` whenever an explicit agent position was supplied.
On success returns the ready environment, the observation `_get_obs()`,
the info dict `_get_info()` (empty), and the advanced global generator. -/
def reset (e : EnvInit) (seed : Option Nat) (g : Rng) :
    Except PyErr (Env × Obs × Info × Rng) :=
  match truthyEqNone e.init_agent with
  | .error err => .error err
  | .ok cond =>
    let (agent, g') :=
      if cond then randPos e.row e.col g
      else (e.init_agent.getD (0, 0), g)
    let env : Env :=
      { row := e.row, col := e.col, term_reward := e.term_reward,
        step_reward := e.step_reward, agent_location := agent,
        target_location := e.init_target }
    .ok (env, (env.agent_location, env.target_location), ([] : Info), g')

/-- The `self._action_to_direction` dictionary of `__init__`:
`0 ↦ [0, 1]`, `1 ↦ [-1, 0]`, `2 ↦ [0, -1]`, `3 ↦ [1, 0]`; any other key
is absent (`none`; the subscript in `step` then raises `KeyError`). -/
def actionToDirection (a : Int) : Option Pos :=
  if a = 0 then some (0, 1)
  else if a = 1 then some (-1, 0)
  else if a = 2 then some (0, -1)
  else if a = 3 then some (1, 0)
  else none

/-- `np.clip(x, lo, hi)` on one coordinate: `min (max x lo) hi`. -/
def npClip (x lo hi : Int) : Int :=
  min (max x lo) hi

/-- The termination loop of `step`:
`terminated = False; for t in self.target_location: terminated = array_equal(agent, t); if terminated: break`.
The running value is the equality test with the last target examined, so the
result is `true` exactly when some target matches (first match breaks). -/
def terminatedLoop (agent : Pos) : List Pos → Bool
  | [] => false
  | t :: ts => if agent = t then true else terminatedLoop agent ts

/-- `GridWorldEnv.step(action)` as a state transformer: the first component is
the environment state after the call (unchanged when the call raises, since
the `self._action_to_direction[action]` lookup precedes every mutation), and
the second is `some (observation, reward, terminated, truncated, info)` on
success and `none` when the lookup raises `KeyError`. -/
def stepRun (e : Env) (action : Int) :
    Env × Option (Obs × Int × Bool × Bool × Info) :=
  match actionToDirection action with
  | none => (e, none)
  | some d =>
    let newLoc : Pos :=
      (npClip (e.agent_location.1 + d.1) 0 ((e.row : Int) - 1),
       npClip (e.agent_location.2 + d.2) 0 ((e.col : Int) - 1))
    let e' : Env := { e with agent_location := newLoc }
    let terminated := terminatedLoop e'.agent_location e'.target_location
    let reward := if terminated then e.term_reward else e.step_reward
    (e', some ((e'.agent_location, e'.target_location), reward, terminated,
               false, ([] : Info)))

/-- A position within the grid bounds `[0, rows-1] × [0, cols-1]`. -/
def inBounds (row col : Nat) (p : Pos) : Prop :=
  0 ≤ p.1 ∧ p.1 ≤ (row : Int) - 1 ∧ 0 ≤ p.2 ∧ p.2 ≤ (col : Int) - 1

instance (row col : Nat) (p : Pos) : Decidable (inBounds row col p) := by
  unfold inBounds; infer_instance

/-- The agent position established by a successful `reset`, when it succeeds. -/
def resetAgent (e : EnvInit) (g : Rng) : Option Pos :=
  match reset e none g with
  | .ok (env, _) => some env.agent_location
  | .error _ => none

/-- The target list established by a successful `reset`, when it succeeds. -/
def resetTargets (e : EnvInit) (g : Rng) : Option (List Pos) :=
  match reset e none g with
  | .ok (env, _) => some env.target_location
  | .error _ => none

/-- A ready 5×5 environment with the agent at `(2, 1)` and one target at
`(2, 2)`, terminal reward `1` and step reward `0`. -/
def env21 : Env :=
  { row := 5, col := 5, term_reward := 1, step_reward := 0,
    agent_location := ((2 : Int), (1 : Int)),
    target_location := [((2 : Int), (2 : Int))] }

/-- The environment `env21` with the agent moved to the corner `(0, 0)`. -/
def env00 : Env :=
  { env21 with agent_location := ((0 : Int), (0 : Int)) }

/-- The `Env` produced by resetting
`mkEnvExplicit 5 5 none [(2, 2)] 1 0` when the global stream yields `(0, 0)`. -/
def env0Reset : Env :=
  { row := 5, col := 5, term_reward := 1, step_reward := 0,
    agent_location := ((0 : Int), (0 : Int)),
    target_location := [((2 : Int), (2 : Int))] }

/- Helper lemmas (shared by several claim proofs). -/

/-- The break-on-match loop of `step` computes exactly membership of the new
agent position in the target list. -/
theorem terminatedLoop_eq_decide (p : Pos) (ts : List Pos) :
    terminatedLoop p ts = decide (p ∈ ts) := by
  induction ts with
  | nil => simp [terminatedLoop]
  | cons t ts ih => by_cases h : p = t <;> simp [terminatedLoop, h, ih]

/-- Keys other than `0, 1, 2, 3` are absent from `_action_to_direction`. -/
theorem actionToDirection_eq_none (a : Int)
    (h : ¬(a = 0 ∨ a = 1 ∨ a = 2 ∨ a = 3)) :
    actionToDirection a = none := by
  push_neg at h
  simp [actionToDirection, h.1, h.2.1, h.2.2.1, h.2.2.2]

/-- Invariant of the rejection-sampling loop for any agent configuration:
starting from any partial list that is short enough, duplicate-free and
(when the agent position is explicit) agent-free, a successful run returns
exactly `n` pairwise-distinct targets, none equal to an explicitly supplied
agent position. -/
theorem sampleTargetsAux_sound (row col : Nat) (initAgent : Option Pos)
    (n : Nat) :
    ∀ (fuel : Nat) (acc : List Pos) (g : Rng) (ts : List Pos) (g' : Rng),
      acc.length ≤ n → acc.Nodup →
      (∀ a0 : Pos, initAgent = some a0 → a0 ∉ acc) →
      sampleTargetsAux row col initAgent n fuel acc g = some (ts, g') →
      ts.length = n ∧ ts.Nodup ∧
        ∀ a0 : Pos, initAgent = some a0 → a0 ∉ ts := by
  intro fuel
  induction fuel with
  | zero =>
    intro acc g ts g' hlen hnd hna h
    by_cases hlt : acc.length < n
    · simp [sampleTargetsAux, hlt] at h
    · simp only [sampleTargetsAux, if_neg hlt, Option.some.injEq,
        Prod.mk.injEq] at h
      obtain ⟨hts, -⟩ := h
      subst hts
      exact ⟨by omega, hnd, hna⟩
  | succ fuel ih =>
    intro acc g ts g' hlen hnd hna h
    simp only [sampleTargetsAux] at h
    by_cases hlt : acc.length < n
    · rw [if_pos hlt] at h
      by_cases hacc : acceptTarget initAgent acc (randPos row col g).1 = true
      · rw [if_pos hacc] at h
        have hparts := hacc
        rw [acceptTarget, Bool.and_eq_true] at hparts
        have hnotmem : (randPos row col g).1 ∉ acc := by
          intro hmem
          have := List.all_eq_true.mp hparts.1 _ hmem
          simp at this
        refine ih (acc ++ [(randPos row col g).1]) (randPos row col g).2 ts g'
          ?_ ?_ ?_ h
        · simp only [List.length_append, List.length_singleton]; omega
        · refine List.Nodup.append hnd (List.nodup_singleton _) ?_
          intro x hx hy
          rw [List.mem_singleton] at hy
          subst hy
          exact hnotmem hx
        · intro a0 ha
          have hne : a0 ≠ (randPos row col g).1 := by
            have hdiff := hparts.2
            rw [ha] at hdiff
            simpa [agentDiffers] using hdiff
          simp only [List.mem_append, List.mem_singleton]
          rintro (hmem | heq)
          · exact hna a0 ha hmem
          · exact hne heq
      · rw [if_neg hacc] at h
        exact ih acc (randPos row col g).2 ts g' hlen hnd hna h
    · rw [if_neg hlt] at h
      simp only [Option.some.injEq, Prod.mk.injEq] at h
      obtain ⟨hts, -⟩ := h
      subst hts
      exact ⟨by omega, hnd, hna⟩

/- Claim theorems. -/

/-- C1: the claim says that on an environment constructed with an explicit
initial agent position, `reset` establishes that position and returns the
observation with empty info, without raising.  The code instead evaluates
`self.init_agent == None` on the 2-element agent array, whose elementwise
result used as a condition raises `ValueError`: resetting
`GridWorldEnv(agent_location=[0, 0], target_location=[[2, 2]], row=5, col=5)`
raises instead of returning. -/
theorem reset_explicit_agent_raises :
    reset (mkEnvExplicit 5 5 (some (0, 0)) [(2, 2)] 1 0) (some 0) (rngOf []) =
      .error PyErr.valueError := rfl

/-- C2: for every recognized action, `step` returns `terminated` true exactly
when the clamped new agent position equals some position of the target list,
reward equal to the terminal constant when terminated and the step constant
otherwise, `truncated = false`, and the empty info mapping. -/
theorem step_recognized_result (e : Env) (a : Int)
    (h : a = 0 ∨ a = 1 ∨ a = 2 ∨ a = 3) :
    ∃ p : Pos, (stepRun e a).1.agent_location = p ∧
      (stepRun e a).2 = some ((p, e.target_location),
        (if p ∈ e.target_location then e.term_reward else e.step_reward),
        decide (p ∈ e.target_location), false, ([] : Info)) := by
  rcases h with h | h | h | h <;> subst h <;>
    exact ⟨_, rfl, by simp [stepRun, actionToDirection, terminatedLoop_eq_decide]⟩

/-- Witness for C2: the spec's concrete scenario — agent at `(2, 1)`, single
target at `(2, 2)`, action right — instantiates the theorem. -/
theorem step_recognized_result_witness :
    ((0 : Int) = 0 ∨ (0 : Int) = 1 ∨ (0 : Int) = 2 ∨ (0 : Int) = 3) ∧
    ∃ p : Pos, (stepRun env21 0).1.agent_location = p ∧
      (stepRun env21 0).2 = some ((p, env21.target_location),
        (if p ∈ env21.target_location then env21.term_reward
         else env21.step_reward),
        decide (p ∈ env21.target_location), false, ([] : Info)) :=
  ⟨Or.inl rfl, step_recognized_result env21 0 (Or.inl rfl)⟩

/-- C3: for every action in `{0, 1, 2, 3}` the new agent position is the old
one plus the unit vector `(0,+1)`, `(-1,0)`, `(0,-1)`, `(+1,0)` respectively,
each coordinate then clamped independently into `[0, rows-1]` and
`[0, cols-1]`. -/
theorem step_moves_by_direction (e : Env) (a : Int)
    (h : a = 0 ∨ a = 1 ∨ a = 2 ∨ a = 3) :
    (stepRun e a).1.agent_location =
      (npClip (e.agent_location.1 +
          (if a = 0 then 0 else if a = 1 then -1 else if a = 2 then 0 else 1))
        0 ((e.row : Int) - 1),
       npClip (e.agent_location.2 +
          (if a = 0 then 1 else if a = 1 then 0 else if a = 2 then -1 else 0))
        0 ((e.col : Int) - 1)) := by
  rcases h with h | h | h | h <;> subst h <;>
    simp [stepRun, actionToDirection]

/-- Witness for C3: the spec's particular case — from `(0, 0)` on a 5×5 grid,
action right yields `(0, 1)`. -/
theorem step_moves_by_direction_witness :
    ((0 : Int) = 0 ∨ (0 : Int) = 1 ∨ (0 : Int) = 2 ∨ (0 : Int) = 3) ∧
    (stepRun env00 0).1.agent_location = ((0 : Int), (1 : Int)) :=
  ⟨Or.inl rfl, (step_moves_by_direction env00 0 (Or.inl rfl)).trans (by decide)⟩

/-- C4: the claim says `reset` is deterministic given the seed.  The code
seeds `self.np_random` but then draws from the process-global `np.random`:
the seed argument is provably irrelevant to the result, while two identically
constructed environments reset with the same seed but different global
generator states receive different agent positions (`(0, 0)` versus
`(1, 1)`). -/
theorem reset_ignores_seed_and_reads_global_state :
    (∀ (e : EnvInit) (s1 s2 : Option Nat) (g : Rng),
      reset e s1 g = reset e s2 g) ∧
    resetAgent (mkEnvExplicit 5 5 none [(2, 2)] 1 0) (rngOf []) =
      some (0, 0) ∧
    resetAgent (mkEnvExplicit 5 5 none [(2, 2)] 1 0) (rngOf [1, 1]) =
      some (1, 1) :=
  ⟨fun _ _ _ _ => rfl, rfl, rfl⟩

/-- C5: on a grid with at least one row and one column, the agent position
after any recognized action lies within `[0, rows-1] × [0, cols-1]`, from any
current position — so the in-bounds invariant is preserved by every step. -/
theorem step_stays_in_bounds (e : Env) (a : Int)
    (hrow : 1 ≤ e.row) (hcol : 1 ≤ e.col)
    (h : a = 0 ∨ a = 1 ∨ a = 2 ∨ a = 3) :
    inBounds e.row e.col (stepRun e a).1.agent_location := by
  have hr : (0 : Int) ≤ (e.row : Int) - 1 := by omega
  have hc : (0 : Int) ≤ (e.col : Int) - 1 := by omega
  rcases h with h | h | h | h <;> subst h <;>
    exact ⟨le_min (le_max_right _ _) hr, min_le_right _ _,
           le_min (le_max_right _ _) hc, min_le_right _ _⟩

/-- Witness for C5: from the corner `(0, 0)` of the 5×5 grid, action up
(which the clamp pins to the boundary) leaves the agent in bounds. -/
theorem step_stays_in_bounds_witness :
    (1 ≤ env00.row ∧ 1 ≤ env00.col ∧
      ((1 : Int) = 0 ∨ (1 : Int) = 1 ∨ (1 : Int) = 2 ∨ (1 : Int) = 3)) ∧
    inBounds env00.row env00.col (stepRun env00 1).1.agent_location :=
  ⟨⟨by decide, by decide, Or.inr (Or.inl rfl)⟩,
   step_stays_in_bounds env00 1 (by decide) (by decide) (Or.inr (Or.inl rfl))⟩

/-- C6 counterexample: the claim says each `reset` of a random-target
environment draws a fresh target set.  Concretely: the environment built with
one random target from global stream `[0, 1]` stores `init_target = [(0, 1)]`;
resetting it while the global stream is `[1, 0]` returns targets `[(0, 1)]`
again (the construction-time draw), while a fresh rejection-sampling draw at
that point of the stream would yield `[(0, 0)] ≠ [(0, 1)]`. -/
theorem reset_no_fresh_target_draw :
    (mkEnvRandom 2 2 none 1 1 0 5 (rngOf [0, 1])).map
        (fun p => resetTargets p.1 (rngOf [1, 0])) =
      some (some [((0 : Int), (1 : Int))]) ∧
    (sampleTargets 2 2 none 1 5 { rngOf [1, 0] with idx := 2 }).map Prod.fst =
      some [((0 : Int), (0 : Int))] ∧
    ([((0 : Int), (1 : Int))] : List Pos) ≠ [((0 : Int), (0 : Int))] :=
  ⟨rfl, rfl, by decide⟩

/-- C6 amended: every successful `reset` installs exactly the target list
stored at construction (`self.target_location = self.init_target`); random
target sets are drawn once in `__init__` and reused by every reset, just like
explicit ones. -/
theorem reset_reuses_init_target (e : EnvInit) (s : Option Nat) (g : Rng)
    (env : Env) (obs : Obs) (info : Info) (g' : Rng)
    (h : reset e s g = .ok (env, obs, info, g')) :
    env.target_location = e.init_target := by
  cases ha : e.init_agent with
  | none =>
    simp only [reset, truthyEqNone, ha, if_pos, Except.ok.injEq,
      Prod.mk.injEq] at h
    obtain ⟨henv, -⟩ := h
    subst henv
    rfl
  | some p => simp [reset, truthyEqNone, ha] at h

/-- Witness for C6 amended: resetting the 5×5 environment with one explicit
target `(2, 2)` and a random agent installs exactly `init_target`. -/
theorem reset_reuses_init_target_witness :
    (reset (mkEnvExplicit 5 5 none [(2, 2)] 1 0) none (rngOf []) =
      .ok (env0Reset, (((0 : Int), (0 : Int)), [((2 : Int), (2 : Int))]),
           ([] : Info), { rngOf [] with idx := 2 })) ∧
    env0Reset.target_location =
      (mkEnvExplicit 5 5 none [(2, 2)] 1 0).init_target :=
  ⟨rfl, reset_reuses_init_target (mkEnvExplicit 5 5 none [(2, 2)] 1 0) none
    (rngOf []) env0Reset _ _ _ rfl⟩

/-- C7 counterexample: the claim says construction rejects explicit positions
outside the grid.  The constructor performs no bounds check: it accepts agent
`(10, 10)` and target `(7, 7)` on a 5×5 grid and stores them verbatim, even
though both are out of bounds. -/
theorem construction_accepts_out_of_bounds :
    (mkEnvExplicit 5 5 (some (10, 10)) [(7, 7)] 1 0).init_agent =
      some (10, 10) ∧
    (mkEnvExplicit 5 5 (some (10, 10)) [(7, 7)] 1 0).init_target = [(7, 7)] ∧
    ¬ inBounds 5 5 ((10 : Int), (10 : Int)) ∧
    ¬ inBounds 5 5 ((7 : Int), (7 : Int)) :=
  ⟨rfl, rfl, by decide, by decide⟩

/-- C7 amended: construction never validates explicit positions — any
explicitly supplied agent position and target list, in or out of bounds, are
accepted and stored unchanged. -/
theorem construction_stores_explicit_positions (row col : Nat) (a : Pos)
    (ts : List Pos) (tr sr : Int) :
    (mkEnvExplicit row col (some a) ts tr sr).init_agent = some a ∧
    (mkEnvExplicit row col (some a) ts tr sr).init_target = ts :=
  ⟨rfl, rfl⟩

/-- C8 counterexample: the claim says a randomly generated target set never
contains the agent's initial position.  With a random agent the sampling
guard `(np.array(None) != new).any()` is vacuously true: on a 1×2 grid with
one random target, construction draws the target `(0, 0)` and the following
`reset` draws the agent's initial position `(0, 0)` — a target equal to the
agent's initial position. -/
theorem random_targets_may_hit_random_agent :
    (mkEnvRandom 1 2 none 1 1 0 5 (rngOf [])).map
        (fun p => (p.1.init_target, resetAgent p.1 (rngOf []))) =
      some ([((0 : Int), (0 : Int))], some ((0 : Int), (0 : Int))) ∧
    ((0 : Int), (0 : Int)) ∈ [((0 : Int), (0 : Int))] :=
  ⟨rfl, by decide⟩

/-- C8 amended: for every random-target construction — explicit or random
agent configuration alike — whenever the rejection-sampling loop returns, the
generated target list has exactly `n` pairwise-distinct positions; and when
the agent position was explicitly supplied, none of them equals that agent
position. -/
theorem sampleTargets_spec (row col n fuel : Nat) (initAgent : Option Pos)
    (g g' : Rng) (ts : List Pos)
    (h : sampleTargets row col initAgent n fuel g = some (ts, g')) :
    ts.length = n ∧ ts.Nodup ∧
      ∀ a0 : Pos, initAgent = some a0 → a0 ∉ ts :=
  sampleTargetsAux_sound row col initAgent n fuel [] g ts g' (Nat.zero_le n)
    List.nodup_nil (fun a0 _ => List.not_mem_nil a0) h

/-- Witness for C8 amended: on a 2×2 grid with agent `(0, 0)`, the loop run
on global stream `[0, 1, 1, 0]` returns the two targets `(0, 1)` and
`(1, 0)`: two distinct positions, neither equal to the agent. -/
theorem sampleTargets_spec_witness :
    (sampleTargets 2 2 (some ((0 : Int), (0 : Int))) 2 10 (rngOf [0, 1, 1, 0]) =
      some ([((0 : Int), (1 : Int)), ((1 : Int), (0 : Int))],
            { rngOf [0, 1, 1, 0] with idx := 4 })) ∧
    (([((0 : Int), (1 : Int)), ((1 : Int), (0 : Int))] : List Pos).length = 2 ∧
     ([((0 : Int), (1 : Int)), ((1 : Int), (0 : Int))] : List Pos).Nodup ∧
     ∀ a0 : Pos, (some ((0 : Int), (0 : Int)) : Option Pos) = some a0 →
       a0 ∉ ([((0 : Int), (1 : Int)), ((1 : Int), (0 : Int))] : List Pos)) :=
  ⟨rfl, sampleTargets_spec 2 2 2 10 (some ((0 : Int), (0 : Int)))
    (rngOf [0, 1, 1, 0]) _ _ rfl⟩

/-- C9: for every action value outside `{0, 1, 2, 3}` the dictionary lookup
raises `KeyError`: `step` produces no result tuple — no default action, no
return value. -/
theorem step_unrecognized_raises (e : Env) (a : Int)
    (h : ¬(a = 0 ∨ a = 1 ∨ a = 2 ∨ a = 3)) :
    (stepRun e a).2 = none := by
  simp [stepRun, actionToDirection_eq_none a h]

/-- Witness for C9: action `7` on the 5×5 environment raises. -/
theorem step_unrecognized_raises_witness :
    (¬((7 : Int) = 0 ∨ (7 : Int) = 1 ∨ (7 : Int) = 2 ∨ (7 : Int) = 3)) ∧
    (stepRun env21 7).2 = none :=
  ⟨by decide, step_unrecognized_raises env21 7 (by decide)⟩

/-- C10: the failing lookup happens before any mutation, so a `step` call
with an unrecognized action leaves the agent position and the target list
exactly as they were before the call. -/
theorem step_unrecognized_preserves_state (e : Env) (a : Int)
    (h : ¬(a = 0 ∨ a = 1 ∨ a = 2 ∨ a = 3)) :
    (stepRun e a).1.agent_location = e.agent_location ∧
    (stepRun e a).1.target_location = e.target_location := by
  simp [stepRun, actionToDirection_eq_none a h]

/-- Witness for C10: the failing action `-1` from `(0, 0)` leaves the agent
at `(0, 0)` with the target list `[(2, 2)]` intact. -/
theorem step_unrecognized_preserves_state_witness :
    (¬((-1 : Int) = 0 ∨ (-1 : Int) = 1 ∨ (-1 : Int) = 2 ∨ (-1 : Int) = 3)) ∧
    ((stepRun env00 (-1)).1.agent_location = env00.agent_location ∧
     (stepRun env00 (-1)).1.target_location = env00.target_location) :=
  ⟨by decide, step_unrecognized_preserves_state env00 (-1) (by decide)⟩

end GridWorld
